import Mathlib

/-!
Verification of the C3 room-reservation service core (`src/main.py`).

Instants are modelled as JST-local seconds (`Int`): all datetimes in the
program live in the single fixed +09:00 zone, so a single integer time line
is faithful.  The reservation store (`Repository.reservation_repository`),
the penalty service and the room-state manager are not shipped under
`src/`; where a claim depends on them they are modelled from the spec, as
marked on each definition.
-/

/-- Reservation status values, from spec §3 (the store module is not in src). -/
inductive ResStatus where
  | Confirmed
  | Cancelled
  | Completed
  | NoShow
deriving DecidableEq, Repr

/-- A stored reservation record, spec §3: id, room, user, time range, status. -/
structure Reservation where
  reservation_id : Nat
  room_id : String
  user_id : String
  start_time : Int
  end_time : Int
  status : ResStatus
deriving DecidableEq, Repr

/-- The reservation store's state: stored reservations plus a fresh-id counter. -/
structure RepoState where
  reservations : List Reservation
  next_id : Nat
deriving DecidableEq, Repr

/-- The empty store at startup. -/
def RepoState.init : RepoState := ⟨[], 0⟩

/-- Errors raised by `create_reservation` (spec §4.2 / §7). -/
inductive CreateError where
  | InvalidRange
  | Overlap
deriving DecidableEq, Repr

/-- The buffer, in seconds: both repository constructions in `main.py`
(lines 77 and 84) pass `buffer_minutes=5`. -/
def BUFFER_SEC : Int := 5 * 60

/-- Does reservation `r`, expanded by `b` seconds on each side, intersect the
closed interval `[s, e]`?  Spec §4.2: "any existing Confirmed reservation for
`room_id`, expanded by a configured buffer (default 5 minutes) on each side,
intersects `[start, end]`". -/
def bufferedIntersects (b : Int) (r : Reservation) (s e : Int) : Bool :=
  s ≤ r.end_time + b && r.start_time - b ≤ e

/-- Is there an existing Confirmed reservation for `room` whose buffer-expanded
interval intersects `[s, e]`? -/
def hasConflict (b : Int) (st : RepoState) (room : String) (s e : Int) : Bool :=
  st.reservations.any fun r =>
    r.room_id == room && r.status == ResStatus.Confirmed && bufferedIntersects b r s e

/-- Modelled from the spec: `create_reservation` of
`Repository.reservation_repository` (module absent from src).  Spec §4.2:
fails with `InvalidRange` if `end <= start`; fails with `Overlap` if any
existing Confirmed reservation for the room, expanded by the buffer on each
side, intersects `[start, end]`; on success stores a new Confirmed
reservation with a freshly generated unique id. -/
def create_reservation (b : Int) (st : RepoState) (room user : String) (s e : Int) :
    Except CreateError (Reservation × RepoState) :=
  if e ≤ s then Except.error CreateError.InvalidRange
  else if hasConflict b st room s e then Except.error CreateError.Overlap
  else
    let r : Reservation := ⟨st.next_id, room, user, s, e, ResStatus.Confirmed⟩
    Except.ok (r, ⟨st.reservations ++ [r], st.next_id + 1⟩)

/-- A reservation may still be cancelled iff it is not already
Cancelled or Completed (spec §4.2). -/
def cancellable (r : Reservation) : Bool :=
  r.status != ResStatus.Cancelled && r.status != ResStatus.Completed

/-- Set the status of the reservation with id `rid` to Cancelled, leave
every other record unchanged. -/
def cancelMap (rid : Nat) (q : Reservation) : Reservation :=
  if q.reservation_id == rid then { q with status := ResStatus.Cancelled } else q

/-- Modelled from the spec: `cancel_reservation` of
`Repository.reservation_repository` (module absent from src).  Spec §4.2:
sets status to Cancelled if the reservation exists and is not already
Cancelled/Completed; returns whether a change occurred; an unknown id is not
an error, it reports false. -/
def cancel_reservation (st : RepoState) (rid : Nat) : Bool × RepoState :=
  match st.reservations.find? (fun r => r.reservation_id == rid) with
  | none => (false, st)
  | some r =>
    if cancellable r then
      (true, ⟨st.reservations.map (cancelMap rid), st.next_id⟩)
    else
      (false, st)

/-- One store-level operation, as issued by the request layer. -/
inductive RepoOp where
  | create (room user : String) (s e : Int)
  | cancel (rid : Nat)

/-- Apply one operation to the store; a failed create stores nothing. -/
def applyOp (b : Int) (st : RepoState) (op : RepoOp) : RepoState :=
  match op with
  | RepoOp.create room user s e =>
    match create_reservation b st room user s e with
    | Except.ok (_, st2) => st2
    | Except.error _ => st
  | RepoOp.cancel rid => (cancel_reservation st rid).2

/-- Run a sequence of operations against the store. -/
def runOps (b : Int) (st : RepoState) (ops : List RepoOp) : RepoState :=
  ops.foldl (applyOp b) st

/-- Two records are compatible when, if both are Confirmed on the same room,
the first record's buffer-expanded interval misses the second's raw interval
(this relation is symmetric: `s₂ ≤ e₁ + b ↔ s₂ - b ≤ e₁`). -/
def sepOK (b : Int) (r1 r2 : Reservation) : Bool :=
  !(r1.room_id == r2.room_id && r1.status == ResStatus.Confirmed
      && r2.status == ResStatus.Confirmed
      && bufferedIntersects b r1 r2.start_time r2.end_time)

/-- The store invariant actually maintained by creation: every pair of
Confirmed reservations on one room is separated by more than the buffer. -/
def roomInvariant (b : Int) (st : RepoState) : Prop :=
  st.reservations.Pairwise (fun r1 r2 => sepOK b r1 r2 = true)

/-- Do the two records' intervals, EACH padded by `b` on both sides, meet?
This is the spec §3 phrasing of the invariant. -/
def doublePaddedOverlap (b : Int) (r1 r2 : Reservation) : Bool :=
  r2.start_time - b ≤ r1.end_time + b && r1.start_time - b ≤ r2.end_time + b

theorem create_preserves_invariant (b : Int) (st : RepoState) (room user : String)
    (s e : Int) (r : Reservation) (st2 : RepoState)
    (hinv : roomInvariant b st)
    (hok : create_reservation b st room user s e = Except.ok (r, st2)) :
    roomInvariant b st2 := by
  unfold create_reservation at hok
  by_cases hle : e ≤ s
  · simp [hle] at hok
  · by_cases hc : hasConflict b st room s e = true
    · simp [hle, hc] at hok
    · simp only [hle, hc, if_false, Bool.not_eq_true] at hok
      have h2 := Except.ok.inj hok
      have hst2 : st2 =
          ⟨st.reservations ++ [⟨st.next_id, room, user, s, e, ResStatus.Confirmed⟩],
            st.next_id + 1⟩ := (congrArg Prod.snd h2).symm
      subst hst2
      unfold roomInvariant
      rw [List.pairwise_append]
      refine ⟨hinv, List.pairwise_singleton _ _, ?_⟩
      intro a ha r' hr'
      simp only [List.mem_singleton] at hr'
      subst hr'
      have hall : ∀ x ∈ st.reservations,
          ¬(x.room_id == room && x.status == ResStatus.Confirmed
              && bufferedIntersects b x s e) = true := by
        intro x hx
        have := List.any_eq_false.mp (Bool.not_eq_true _ ▸ hc) x hx
        simp [this]
      have hx := hall a ha
      simp only [Bool.and_eq_true, not_and, Bool.not_eq_true] at hx
      simp only [sepOK]
      by_cases h1 : (a.room_id == room) = true
      · by_cases h2 : (a.status == ResStatus.Confirmed) = true
        · have hd := hx ⟨h1, h2⟩
          simp [h1, h2, hd]
        · simp only [Bool.not_eq_true] at h2
          simp [h1, h2]
      · simp only [Bool.not_eq_true] at h1
        simp [h1]

theorem sepOK_cancelMap (b : Int) (rid : Nat) (a c : Reservation)
    (h : sepOK b a c = true) :
    sepOK b (cancelMap rid a) (cancelMap rid c) = true := by
  unfold cancelMap
  by_cases ha : a.reservation_id == rid <;> by_cases hc : c.reservation_id == rid <;>
    simp only [ha, hc, if_true, if_false, ite_true, ite_false] <;>
    simp_all [sepOK, bufferedIntersects]

theorem cancel_preserves_invariant (b : Int) (st : RepoState) (rid : Nat)
    (hinv : roomInvariant b st) :
    roomInvariant b (cancel_reservation st rid).2 := by
  unfold cancel_reservation
  cases hfind : st.reservations.find? (fun r => r.reservation_id == rid) with
  | none => exact hinv
  | some r =>
    by_cases hcan : cancellable r = true
    · simp only [hcan, if_true]
      exact List.Pairwise.map _ (fun a c h => sepOK_cancelMap b rid a c h) hinv
    · simp only [hcan, if_false]
      exact hinv

theorem applyOp_preserves_invariant (b : Int) (st : RepoState) (op : RepoOp)
    (hinv : roomInvariant b st) :
    roomInvariant b (applyOp b st op) := by
  cases op with
  | create room user s e =>
    simp only [applyOp]
    cases hres : create_reservation b st room user s e with
    | ok p =>
      exact create_preserves_invariant b st room user s e p.1 p.2 hinv
        (by rw [hres])
    | error _ => exact hinv
  | cancel rid =>
    simp only [applyOp]
    exact cancel_preserves_invariant b st rid hinv

theorem runOps_invariant_aux (b : Int) (ops : List RepoOp) :
    ∀ st : RepoState, roomInvariant b st → roomInvariant b (runOps b st ops) := by
  induction ops with
  | nil => intro st h; exact h
  | cons op rest ih =>
    intro st h
    exact ih (applyOp b st op) (applyOp_preserves_invariant b st op h)

/-- C1 (amended): after any sequence of create/cancel operations, no two
Confirmed reservations for one room come closer than the 5-minute buffer
(equivalently: one reservation's buffer-expanded interval never meets the
other's raw interval), and a create whose valid interval meets an existing
Confirmed reservation's buffer-expanded interval is rejected with Overlap
and stores nothing. -/
theorem C1_buffered_invariant (ops : List RepoOp) (room user : String) (s e : Int)
    (hrange : s < e)
    (hconf : hasConflict BUFFER_SEC (runOps BUFFER_SEC RepoState.init ops) room s e = true) :
    roomInvariant BUFFER_SEC (runOps BUFFER_SEC RepoState.init ops) ∧
    create_reservation BUFFER_SEC (runOps BUFFER_SEC RepoState.init ops) room user s e
      = Except.error CreateError.Overlap ∧
    runOps BUFFER_SEC RepoState.init (ops ++ [RepoOp.create room user s e])
      = runOps BUFFER_SEC RepoState.init ops := by
  have hinv := runOps_invariant_aux BUFFER_SEC ops RepoState.init List.Pairwise.nil
  have hcr : create_reservation BUFFER_SEC (runOps BUFFER_SEC RepoState.init ops) room user s e
      = Except.error CreateError.Overlap := by
    simp [create_reservation, not_le.mpr hrange, hconf]
  refine ⟨hinv, hcr, ?_⟩
  unfold runOps
  rw [List.foldl_append]
  simp [applyOp, runOps] at hcr ⊢
  rw [hcr]

/-- C1 witness: a stored reservation `[0, 600]` on Room-A forces a later
request `[700, 1600]` (inside the 300-second buffer) to be rejected. -/
theorem C1_buffered_invariant_witness :
    roomInvariant BUFFER_SEC
      (runOps BUFFER_SEC RepoState.init [RepoOp.create "Room-A" "u1" 0 600]) ∧
    create_reservation BUFFER_SEC
      (runOps BUFFER_SEC RepoState.init [RepoOp.create "Room-A" "u1" 0 600])
      "Room-A" "u2" 700 1600 = Except.error CreateError.Overlap ∧
    runOps BUFFER_SEC RepoState.init
      ([RepoOp.create "Room-A" "u1" 0 600] ++ [RepoOp.create "Room-A" "u2" 700 1600])
      = runOps BUFFER_SEC RepoState.init [RepoOp.create "Room-A" "u1" 0 600] :=
  C1_buffered_invariant [RepoOp.create "Room-A" "u1" 0 600] "Room-A" "u2" 700 1600
    (by decide) (by decide)

/-- C1 counterexample to the claim as stated: two successful creates on
Room-A, `[0, 600]` and `[960, 1560]`, are only 360 seconds apart, so their
intervals EACH padded by the 300-second buffer on both sides do overlap,
yet both reservations are stored Confirmed. -/
theorem C1_double_padding_counterexample :
    (runOps BUFFER_SEC RepoState.init
      [RepoOp.create "Room-A" "u1" 0 600,
       RepoOp.create "Room-A" "u2" 960 1560]).reservations.length = 2 ∧
    ((runOps BUFFER_SEC RepoState.init
      [RepoOp.create "Room-A" "u1" 0 600,
       RepoOp.create "Room-A" "u2" 960 1560]).reservations.all
        fun r => r.status == ResStatus.Confirmed) = true ∧
    ((runOps BUFFER_SEC RepoState.init
      [RepoOp.create "Room-A" "u1" 0 600,
       RepoOp.create "Room-A" "u2" 960 1560]).reservations.any
        fun r1 => (runOps BUFFER_SEC RepoState.init
          [RepoOp.create "Room-A" "u1" 0 600,
           RepoOp.create "Room-A" "u2" 960 1560]).reservations.any
            fun r2 => r1.reservation_id != r2.reservation_id
              && r1.room_id == r2.room_id
              && doublePaddedOverlap BUFFER_SEC r1 r2) = true := by
  refine ⟨by decide, by decide, by decide⟩

/-- The room the single deployment monitors: `ROOM_ID = "Room-A"` (main.py:66). -/
def ROOM_ID : String := "Room-A"

/-- The engine output per tick (`room_manager.update_state` result), spec §4.3:
state, bound reservation id, alert. -/
structure StateInfo where
  state : String
  reservation_id : Option Nat
  alert : Option String
deriving DecidableEq, Repr

/-- The published snapshot `system_status` (main.py:97-105), field for field. -/
structure SystemStatus where
  timestamp : Option Int
  room_id : String
  room_state : String
  people_count : Nat
  is_used : Bool
  reservation_id : Option Nat
  alert : Option String
deriving DecidableEq, Repr

/-- The snapshot as initialised at module load (main.py:97-105), before the
first tick. -/
def initial_system_status : SystemStatus :=
  { timestamp := none
    room_id := ROOM_ID
    room_state := "IDLE"
    people_count := 0
    is_used := false
    reservation_id := none
    alert := none }

/-- One iteration of the `while True` body of `background_monitoring_task`
(main.py:114-138).  The two fallible calls — the occupancy read and the state
update — are passed in as `Except` values: an `error` stands for the Python
call raising, in which case the `except` clause leaves `system_status`
untouched. -/
def tick (prev : SystemStatus) (now : Int) (occRead : Except String Bool)
    (updateState : Bool → Int → Except String StateInfo) : SystemStatus :=
  match occRead with
  | Except.error _ => prev
  | Except.ok occ =>
    match updateState occ now with
    | Except.error _ => prev
    | Except.ok info =>
      { timestamp := some now
        room_id := ROOM_ID
        room_state := info.state
        people_count := if occ then 1 else 0
        is_used := occ
        reservation_id := info.reservation_id
        alert := info.alert }

/-- The inputs one scheduled tick observes. -/
structure TickInput where
  now : Int
  occRead : Except String Bool
  updateState : Bool → Int → Except String StateInfo

/-- The monitoring loop over a list of scheduled ticks, recording the
snapshot published after each one. -/
def monitor_trace (prev : SystemStatus) (ticks : List TickInput) : List SystemStatus :=
  match ticks with
  | [] => []
  | t :: rest =>
    let next := tick prev t.now t.occRead t.updateState
    next :: monitor_trace next rest

/-- `GET /` handler body (main.py:171-176): returns `system_status` as is. -/
def index_route (s : SystemStatus) : SystemStatus := s

/-- `GET /api/room_status` handler body (main.py:443-449): returns
`system_status` as is. -/
def api_room_status (s : SystemStatus) : SystemStatus := s

theorem monitor_trace_length (prev : SystemStatus) (ticks : List TickInput) :
    (monitor_trace prev ticks).length = ticks.length := by
  induction ticks generalizing prev with
  | nil => rfl
  | cons t rest ih => simp [monitor_trace, ih]

/-- C3: a tick in which the occupancy read raises, or in which the state
update raises, leaves the published snapshot unchanged in every field, and
the loop still processes every later scheduled tick: the trace of the
remaining ticks is unaffected and one snapshot is published per scheduled
tick. -/
theorem C3_failed_tick_keeps_snapshot (prev : SystemStatus) (t : TickInput)
    (ticks : List TickInput) (msg : String)
    (hfail : t.occRead = Except.error msg ∨
      ∃ occ, t.occRead = Except.ok occ ∧ t.updateState occ t.now = Except.error msg) :
    tick prev t.now t.occRead t.updateState = prev ∧
    monitor_trace prev (t :: ticks) = prev :: monitor_trace prev ticks ∧
    (monitor_trace prev (t :: ticks)).length = ticks.length + 1 := by
  have htick : tick prev t.now t.occRead t.updateState = prev := by
    rcases hfail with h | ⟨occ, hocc, hupd⟩
    · simp [tick, h]
    · simp [tick, hocc, hupd]
  refine ⟨htick, ?_, ?_⟩
  · simp [monitor_trace, htick]
  · rw [monitor_trace_length]
    rfl

/-- C3 witness: with an initial snapshot, a tick whose occupancy read fails
is absorbed and the loop goes on. -/
theorem C3_failed_tick_keeps_snapshot_witness :
    tick initial_system_status 100 (Except.error "occupancy source down")
      (fun _ _ => Except.ok ⟨"IDLE", none, none⟩) = initial_system_status ∧
    monitor_trace initial_system_status
      [⟨100, Except.error "occupancy source down",
        fun _ _ => Except.ok ⟨"IDLE", none, none⟩⟩]
      = initial_system_status :: monitor_trace initial_system_status [] ∧
    (monitor_trace initial_system_status
      [⟨100, Except.error "occupancy source down",
        fun _ _ => Except.ok ⟨"IDLE", none, none⟩⟩]).length = 0 + 1 :=
  C3_failed_tick_keeps_snapshot initial_system_status
    ⟨100, Except.error "occupancy source down",
      fun _ _ => Except.ok ⟨"IDLE", none, none⟩⟩
    [] "occupancy source down" (Or.inl rfl)

/-- C6: after a successful tick on `(is_occupied, now)` the snapshot served
by `GET /` and `GET /api/room_status` is exactly the engine output plus
`timestamp = now`, `room_id = ROOM_ID`, `is_used = is_occupied`, and
`people_count = 1` iff occupied, else `0`. -/
theorem C6_success_tick_snapshot (prev : SystemStatus) (now : Int) (occ : Bool)
    (info : StateInfo) (occRead : Except String Bool)
    (updateState : Bool → Int → Except String StateInfo)
    (hocc : occRead = Except.ok occ) (hupd : updateState occ now = Except.ok info) :
    index_route (tick prev now occRead updateState)
        = tick prev now occRead updateState ∧
    api_room_status (tick prev now occRead updateState)
        = tick prev now occRead updateState ∧
    tick prev now occRead updateState =
      { timestamp := some now
        room_id := ROOM_ID
        room_state := info.state
        people_count := if occ then 1 else 0
        is_used := occ
        reservation_id := info.reservation_id
        alert := info.alert } := by
  refine ⟨rfl, rfl, ?_⟩
  simp [tick, hocc, hupd]

/-- C6 witness: a successful occupied tick at time 500. -/
theorem C6_success_tick_snapshot_witness :
    index_route (tick initial_system_status 500 (Except.ok true)
        (fun _ _ => Except.ok ⟨"IN_USE", some 7, none⟩))
      = tick initial_system_status 500 (Except.ok true)
        (fun _ _ => Except.ok ⟨"IN_USE", some 7, none⟩) ∧
    api_room_status (tick initial_system_status 500 (Except.ok true)
        (fun _ _ => Except.ok ⟨"IN_USE", some 7, none⟩))
      = tick initial_system_status 500 (Except.ok true)
        (fun _ _ => Except.ok ⟨"IN_USE", some 7, none⟩) ∧
    tick initial_system_status 500 (Except.ok true)
        (fun _ _ => Except.ok ⟨"IN_USE", some 7, none⟩) =
      { timestamp := some 500
        room_id := ROOM_ID
        room_state := "IN_USE"
        people_count := if true then 1 else 0
        is_used := true
        reservation_id := some 7
        alert := none } :=
  C6_success_tick_snapshot initial_system_status 500 true ⟨"IN_USE", some 7, none⟩
    (Except.ok true) (fun _ _ => Except.ok ⟨"IN_USE", some 7, none⟩) rfl rfl

/-- C7: before the first tick the published snapshot is the Idle one —
room_state "IDLE", no reservation, no alert, no timestamp, people_count 0,
not used — and a successful tick's output does not depend on the previous
snapshot at all (the state is recomputed fresh each tick, nothing is
carried over or persisted). -/
theorem C7_initial_idle_snapshot (prev prev2 : SystemStatus) (now : Int) (occ : Bool)
    (info : StateInfo) (occRead : Except String Bool)
    (updateState : Bool → Int → Except String StateInfo)
    (hocc : occRead = Except.ok occ) (hupd : updateState occ now = Except.ok info) :
    initial_system_status.room_state = "IDLE" ∧
    initial_system_status.reservation_id = none ∧
    initial_system_status.alert = none ∧
    initial_system_status.timestamp = none ∧
    initial_system_status.people_count = 0 ∧
    initial_system_status.is_used = false ∧
    tick prev now occRead updateState = tick prev2 now occRead updateState := by
  refine ⟨rfl, rfl, rfl, rfl, rfl, rfl, ?_⟩
  simp [tick, hocc, hupd]

/-- C7 witness: the initial snapshot fields, and tick independence from two
different previous snapshots. -/
theorem C7_initial_idle_snapshot_witness :
    initial_system_status.room_state = "IDLE" ∧
    initial_system_status.reservation_id = none ∧
    initial_system_status.alert = none ∧
    initial_system_status.timestamp = none ∧
    initial_system_status.people_count = 0 ∧
    initial_system_status.is_used = false ∧
    tick initial_system_status 42 (Except.ok false)
        (fun _ _ => Except.ok ⟨"IDLE", none, none⟩)
      = tick { initial_system_status with room_state := "IN_USE" } 42 (Except.ok false)
        (fun _ _ => Except.ok ⟨"IDLE", none, none⟩) :=
  C7_initial_idle_snapshot initial_system_status
    { initial_system_status with room_state := "IN_USE" } 42 false
    ⟨"IDLE", none, none⟩ (Except.ok false)
    (fun _ _ => Except.ok ⟨"IDLE", none, none⟩) rfl rfl

/-- Reservation policy constants (main.py:42-44, env defaults). -/
def MIN_RESERVE_MINUTES : Int := 15

/-- Maximum reservation length in minutes (main.py:43). -/
def MAX_RESERVE_MINUTES : Int := 120

/-- Maximum days ahead a reservation may start (main.py:44). -/
def MAX_RESERVE_DAYS_AHEAD : Int := 7

/-- The JST calendar day of an instant (instants are already JST-local
seconds, so `.date()` is a floor division by the day length). -/
def jstDate (t : Int) : Int := Int.fdiv t 86400

/-- The result of `penalty_service.get_summary(user_id, now)` (spec §4.4;
the penalty service module is absent from src, so the summary is taken as
an input of the handler). -/
structure PenaltySummary where
  points : Int
  threshold : Int
  is_banned : Bool
  ban_until : Option Int
  window_days : Int
deriving DecidableEq, Repr

/-- Responses of `api_create_reservation`: 400 with a message, 403 with the
penalty fields, or 201 with the stored reservation. -/
inductive ApiResult where
  | badRequest (msg : String)
  | forbidden (points threshold : Int) (ban_until : Option Int) (window_days : Int)
  | createdRes (r : Reservation)
deriving DecidableEq, Repr

/-- A `POST /api/reservations` body after JSON decoding.  `fields = none`
models a missing `date`/`start_time`/`end_time`; `fields = some none` models
bodies whose assembled ISO string fails to parse; `fields = some (some (s, e))`
models a body parsing to start instant `s` and end instant `e` (seconds).
The handler computes the duration in float minutes; for whole-second
instants its comparisons against the minute bounds coincide exactly with
the integer-second comparisons used here. -/
structure ApiCreateRequest where
  user_id : Option String
  room_id : Option String
  fields : Option (Option (Int × Int))

/-- The `POST /api/reservations` handler (main.py:488-591): user check, ban
check, field presence, parse, `end <= start`, past start, minimum and
maximum duration, days-ahead limit, then the store call, whose `ValueError`
becomes a 400. -/
def api_create_reservation (st : RepoState) (req : ApiCreateRequest) (now : Int)
    (summaryOf : String → Int → PenaltySummary) : ApiResult × RepoState :=
  match req.user_id with
  | none => (ApiResult.badRequest "user_id is required", st)
  | some uid =>
    let summary := summaryOf uid now
    if summary.is_banned then
      (ApiResult.forbidden summary.points summary.threshold summary.ban_until
        summary.window_days, st)
    else
      let room := req.room_id.getD ROOM_ID
      match req.fields with
      | none => (ApiResult.badRequest "date, start_time, end_time are required", st)
      | some none => (ApiResult.badRequest "invalid date/time format", st)
      | some (some (start_dt, end_dt)) =>
        if end_dt ≤ start_dt then
          (ApiResult.badRequest "end_time must be after start_time", st)
        else if start_dt < now then
          (ApiResult.badRequest "cannot reserve a past time", st)
        else if end_dt - start_dt < MIN_RESERVE_MINUTES * 60 then
          (ApiResult.badRequest "below minimum duration", st)
        else if end_dt - start_dt > MAX_RESERVE_MINUTES * 60 then
          (ApiResult.badRequest "above maximum duration", st)
        else if jstDate (now + MAX_RESERVE_DAYS_AHEAD * 86400) < jstDate start_dt then
          (ApiResult.badRequest "too many days ahead", st)
        else
          match create_reservation BUFFER_SEC st room uid start_dt end_dt with
          | Except.error CreateError.InvalidRange =>
            (ApiResult.badRequest "invalid range", st)
          | Except.error CreateError.Overlap =>
            (ApiResult.badRequest "overlap", st)
          | Except.ok (r, st2) => (ApiResult.createdRes r, st2)

/-- Responses of `DELETE /api/reservations/<id>` (main.py:594-599). -/
inductive CancelApiResult where
  | notFound
  | cancelled (rid : Nat)
deriving DecidableEq, Repr

/-- The `DELETE /api/reservations/<id>` handler (main.py:594-599): the
store's boolean is upgraded to 404 / 200. -/
def api_cancel_reservation (st : RepoState) (rid : Nat) : CancelApiResult × RepoState :=
  let res := cancel_reservation st rid
  if res.1 then (CancelApiResult.cancelled rid, res.2) else (CancelApiResult.notFound, res.2)

theorem api_create_no_store (st : RepoState) (req : ApiCreateRequest) (now : Int)
    (summaryOf : String → Int → PenaltySummary) (s e : Int)
    (hf : req.fields = some (some (s, e)))
    (hrej : e ≤ s ∨ s < now ∨ e - s < MIN_RESERVE_MINUTES * 60 ∨
      MAX_RESERVE_MINUTES * 60 < e - s ∨
      jstDate (now + MAX_RESERVE_DAYS_AHEAD * 86400) < jstDate s) :
    (api_create_reservation st req now summaryOf).2 = st ∧
    ∀ r, (api_create_reservation st req now summaryOf).1 ≠ ApiResult.createdRes r := by
  unfold api_create_reservation
  cases hu : req.user_id with
  | none => exact ⟨rfl, fun r h => by simp at h⟩
  | some uid =>
    by_cases hb : (summaryOf uid now).is_banned = true
    · simp [hb]
    · simp only [Bool.not_eq_true] at hb
      rw [hf]
      simp only [hb, Bool.false_eq_true, if_false]
      split_ifs with h1 h2 h3 h4 h5
      · exact ⟨rfl, fun r h => by simp at h⟩
      · exact ⟨rfl, fun r h => by simp at h⟩
      · exact ⟨rfl, fun r h => by simp at h⟩
      · exact ⟨rfl, fun r h => by simp at h⟩
      · exact ⟨rfl, fun r h => by simp at h⟩
      · rcases hrej with h | h | h | h | h
        · exact absurd h h1
        · exact absurd h h2
        · exact absurd h h3
        · exact absurd h h4
        · exact absurd h h5

/-- C2: a reservation request with `end_time <= start_time` always fails:
the store's create returns `InvalidRange` for every room and user, and the
`POST /api/reservations` handler answers with an error and leaves the store
untouched — no reservation is ever created from such a request. -/
theorem C2_invalid_range_rejected (st : RepoState) (req : ApiCreateRequest)
    (now : Int) (summaryOf : String → Int → PenaltySummary) (s e : Int)
    (hf : req.fields = some (some (s, e))) (hle : e ≤ s) :
    (∀ room user : String, create_reservation BUFFER_SEC st room user s e
      = Except.error CreateError.InvalidRange) ∧
    (api_create_reservation st req now summaryOf).2 = st ∧
    ∀ r, (api_create_reservation st req now summaryOf).1 ≠ ApiResult.createdRes r := by
  have h := api_create_no_store st req now summaryOf s e hf (Or.inl hle)
  exact ⟨fun room user => by simp [create_reservation, hle], h.1, h.2⟩

/-- C2 witness: an empty-interval request `[100, 100]` is rejected at both
layers. -/
theorem C2_invalid_range_rejected_witness :
    (create_reservation BUFFER_SEC RepoState.init "Room-A" "u1" 100 100
      = Except.error CreateError.InvalidRange) ∧
    (api_create_reservation RepoState.init ⟨some "u1", none, some (some (100, 100))⟩ 0
      (fun _ _ => ⟨0, 3, false, none, 30⟩)).2 = RepoState.init ∧
    (api_create_reservation RepoState.init ⟨some "u1", none, some (some (100, 100))⟩ 0
      (fun _ _ => ⟨0, 3, false, none, 30⟩)).1
      ≠ ApiResult.createdRes ⟨0, "Room-A", "u1", 100, 100, ResStatus.Confirmed⟩ :=
  ⟨(C2_invalid_range_rejected RepoState.init ⟨some "u1", none, some (some (100, 100))⟩ 0
      (fun _ _ => ⟨0, 3, false, none, 30⟩) 100 100 rfl le_rfl).1 "Room-A" "u1",
   (C2_invalid_range_rejected RepoState.init ⟨some "u1", none, some (some (100, 100))⟩ 0
      (fun _ _ => ⟨0, 3, false, none, 30⟩) 100 100 rfl le_rfl).2.1,
   (C2_invalid_range_rejected RepoState.init ⟨some "u1", none, some (some (100, 100))⟩ 0
      (fun _ _ => ⟨0, 3, false, none, 30⟩) 100 100 rfl le_rfl).2.2 _⟩

/-- C4: a request whose duration is below `MIN_RESERVE_MINUTES`, above
`MAX_RESERVE_MINUTES`, or whose start date lies more than
`MAX_RESERVE_DAYS_AHEAD` days past the virtual now is rejected by the
request layer with no reservation created — while the store itself performs
none of these checks: it accepts any conflict-free interval with
`end > start`, however short, long, or far in the future. -/
theorem C4_policy_checks_only_in_api (st : RepoState) (req : ApiCreateRequest)
    (now : Int) (summaryOf : String → Int → PenaltySummary) (s e : Int)
    (hf : req.fields = some (some (s, e)))
    (hviol : e - s < MIN_RESERVE_MINUTES * 60 ∨ MAX_RESERVE_MINUTES * 60 < e - s ∨
      jstDate (now + MAX_RESERVE_DAYS_AHEAD * 86400) < jstDate s) :
    ((api_create_reservation st req now summaryOf).2 = st ∧
     ∀ r, (api_create_reservation st req now summaryOf).1 ≠ ApiResult.createdRes r) ∧
    (∀ (room user : String) (s2 e2 : Int), s2 < e2 →
      hasConflict BUFFER_SEC st room s2 e2 = false →
      create_reservation BUFFER_SEC st room user s2 e2 =
        Except.ok (⟨st.next_id, room, user, s2, e2, ResStatus.Confirmed⟩,
          ⟨st.reservations ++ [⟨st.next_id, room, user, s2, e2, ResStatus.Confirmed⟩],
            st.next_id + 1⟩)) := by
  refine ⟨api_create_no_store st req now summaryOf s e hf ?_, ?_⟩
  · rcases hviol with h | h | h
    · exact Or.inr (Or.inr (Or.inl h))
    · exact Or.inr (Or.inr (Or.inr (Or.inl h)))
    · exact Or.inr (Or.inr (Or.inr (Or.inr h)))
  · intro room user s2 e2 hlt hnc
    simp [create_reservation, not_le.mpr hlt, hnc]

/-- C4 witness: a 60-second request is rejected by the API, while the store
happily creates the very same 60-second reservation when called directly. -/
theorem C4_policy_checks_only_in_api_witness :
    ((api_create_reservation RepoState.init ⟨some "u1", none, some (some (0, 60))⟩ 0
        (fun _ _ => ⟨0, 3, false, none, 30⟩)).2 = RepoState.init ∧
     ∀ r, (api_create_reservation RepoState.init ⟨some "u1", none, some (some (0, 60))⟩ 0
        (fun _ _ => ⟨0, 3, false, none, 30⟩)).1 ≠ ApiResult.createdRes r) ∧
    create_reservation BUFFER_SEC RepoState.init "Room-A" "u1" 0 60 =
      Except.ok (⟨0, "Room-A", "u1", 0, 60, ResStatus.Confirmed⟩,
        ⟨[⟨0, "Room-A", "u1", 0, 60, ResStatus.Confirmed⟩], 1⟩) :=
  ⟨(C4_policy_checks_only_in_api RepoState.init ⟨some "u1", none, some (some (0, 60))⟩ 0
      (fun _ _ => ⟨0, 3, false, none, 30⟩) 0 60 rfl (Or.inl (by decide))).1,
   (C4_policy_checks_only_in_api RepoState.init ⟨some "u1", none, some (some (0, 60))⟩ 0
      (fun _ _ => ⟨0, 3, false, none, 30⟩) 0 60 rfl (Or.inl (by decide))).2
      "Room-A" "u1" 0 60 (by decide) (by decide)⟩

/-- C9: when the penalty summary of the requesting user at the virtual now
reports a ban, `POST /api/reservations` answers 403 carrying the summary's
points, threshold, ban_until and window_days, the store is untouched, and
this happens whatever the rest of the body holds (the date/time fields are
never even validated). -/
theorem C9_banned_user_rejected (st : RepoState) (req : ApiCreateRequest)
    (now : Int) (summaryOf : String → Int → PenaltySummary) (uid : String)
    (huid : req.user_id = some uid)
    (hban : (summaryOf uid now).is_banned = true) :
    api_create_reservation st req now summaryOf =
      (ApiResult.forbidden (summaryOf uid now).points (summaryOf uid now).threshold
        (summaryOf uid now).ban_until (summaryOf uid now).window_days, st) := by
  unfold api_create_reservation
  rw [huid]
  simp [hban]

/-- C9 witness: a banned user's request with a nonsense body is answered 403
with the summary fields, and nothing is stored. -/
theorem C9_banned_user_rejected_witness :
    api_create_reservation RepoState.init ⟨some "u9", none, some none⟩ 50
      (fun _ _ => ⟨5, 3, true, some 1000, 30⟩) =
      (ApiResult.forbidden 5 3 (some 1000) 30, RepoState.init) :=
  C9_banned_user_rejected RepoState.init ⟨some "u9", none, some none⟩ 50
    (fun _ _ => ⟨5, 3, true, some 1000, 30⟩) "u9" rfl rfl

/-- C10: a request whose parsed start instant lies strictly before the
virtual now is answered 400 with the past-time error and the store is left
unchanged, even when the user exists and is not banned and the interval is
otherwise well-formed. -/
theorem C10_past_start_rejected (st : RepoState) (req : ApiCreateRequest)
    (now : Int) (summaryOf : String → Int → PenaltySummary) (uid : String) (s e : Int)
    (huid : req.user_id = some uid)
    (hnb : (summaryOf uid now).is_banned = false)
    (hf : req.fields = some (some (s, e)))
    (hrange : s < e)
    (hpast : s < now) :
    api_create_reservation st req now summaryOf =
      (ApiResult.badRequest "cannot reserve a past time", st) := by
  unfold api_create_reservation
  rw [huid, hf]
  simp [hnb, not_le.mpr hrange, hpast]

/-- C10 witness: a valid one-hour interval starting at 100 is rejected when
the virtual now is 200. -/
theorem C10_past_start_rejected_witness :
    api_create_reservation RepoState.init ⟨some "u1", none, some (some (100, 3700))⟩ 200
      (fun _ _ => ⟨0, 3, false, none, 30⟩) =
      (ApiResult.badRequest "cannot reserve a past time", RepoState.init) :=
  C10_past_start_rejected RepoState.init ⟨some "u1", none, some (some (100, 3700))⟩ 200
    (fun _ _ => ⟨0, 3, false, none, 30⟩) "u1" 100 3700 rfl rfl rfl (by decide) (by decide)

theorem cancelMap_preserves_id (rid : Nat) (q : Reservation) :
    (cancelMap rid q).reservation_id = q.reservation_id := by
  unfold cancelMap
  split <;> rfl

theorem find_map_cancel (rid : Nat) (l : List Reservation) :
    (l.map (cancelMap rid)).find? (fun q => q.reservation_id == rid)
      = (l.find? (fun q => q.reservation_id == rid)).map (cancelMap rid) := by
  induction l with
  | nil => rfl
  | cons a l ih =>
    by_cases h : (a.reservation_id == rid) = true
    · have h2 : ((cancelMap rid a).reservation_id == rid) = true := by
        rw [cancelMap_preserves_id]; exact h
      simp [List.find?, h, h2]
    · have h2 : ((cancelMap rid a).reservation_id == rid) = false := by
        rw [cancelMap_preserves_id]; simpa using h
      simp only [Bool.not_eq_true] at h
      simp [List.find?, h, h2, ih]

theorem cancel_twice_false (st : RepoState) (rid : Nat)
    (h : (cancel_reservation st rid).1 = true) :
    cancel_reservation (cancel_reservation st rid).2 rid
      = (false, (cancel_reservation st rid).2) := by
  have h1 : cancel_reservation st rid =
      (true, ⟨st.reservations.map (cancelMap rid), st.next_id⟩) ∧
      ∃ r, st.reservations.find? (fun q => q.reservation_id == rid) = some r ∧
        cancellable r = true := by
    cases hfind : st.reservations.find? (fun q => q.reservation_id == rid) with
    | none => simp [cancel_reservation, hfind] at h
    | some r =>
      by_cases hcan : cancellable r = true
      · exact ⟨by simp [cancel_reservation, hfind, hcan], r, rfl, hcan⟩
      · simp [cancel_reservation, hfind, hcan] at h
  obtain ⟨heq, r, hfind, hcan⟩ := h1
  rw [heq]
  have hid : (r.reservation_id == rid) = true := by
    have hpred := List.find?_some hfind
    simpa using hpred
  have hfind2 : ((st.reservations.map (cancelMap rid)).find?
      (fun q => q.reservation_id == rid)) = some (cancelMap rid r) := by
    rw [find_map_cancel, hfind]; rfl
  have hnc : cancellable (cancelMap rid r) = false := by
    unfold cancelMap
    rw [if_pos hid]
    rfl
  simp [cancel_reservation, hfind2, hnc]

/-- C5: cancelling an id that is unknown, or whose reservation is already
Cancelled or Completed, returns false from the store and 404 from the
request layer with every stored reservation unchanged; and whenever a
cancel succeeds (returns true), a second cancel of the same id returns
false and changes nothing. -/
theorem C5_cancel_not_found_semantics (st : RepoState) (rid : Nat)
    (hgone : ∀ r ∈ st.reservations, r.reservation_id = rid →
      r.status = ResStatus.Cancelled ∨ r.status = ResStatus.Completed) :
    (cancel_reservation st rid = (false, st) ∧
     api_cancel_reservation st rid = (CancelApiResult.notFound, st)) ∧
    (∀ (st2 : RepoState) (rid2 : Nat), (cancel_reservation st2 rid2).1 = true →
      cancel_reservation (cancel_reservation st2 rid2).2 rid2
        = (false, (cancel_reservation st2 rid2).2)) := by
  have hfail : cancel_reservation st rid = (false, st) := by
    unfold cancel_reservation
    cases hfind : st.reservations.find? (fun r => r.reservation_id == rid) with
    | none => rfl
    | some r =>
      have hid : r.reservation_id = rid := by
        have hpred := List.find?_some hfind
        simpa using hpred
      have hmem : r ∈ st.reservations := List.mem_of_find?_eq_some hfind
      have hst := hgone r hmem hid
      have hnc : cancellable r = false := by
        rcases hst with h | h <;> simp [cancellable, h]
      simp [hnc]
  refine ⟨⟨hfail, ?_⟩, fun st2 rid2 h => cancel_twice_false st2 rid2 h⟩
  simp [api_cancel_reservation, hfail]

/-- C5 witness: with one Completed reservation stored, its id cancels to
false/404; and a fresh Confirmed reservation cancels to true once, then
false. -/
theorem C5_cancel_not_found_semantics_witness :
    (cancel_reservation ⟨[⟨3, "Room-A", "u1", 0, 600, ResStatus.Completed⟩], 4⟩ 3
        = (false, ⟨[⟨3, "Room-A", "u1", 0, 600, ResStatus.Completed⟩], 4⟩) ∧
     api_cancel_reservation ⟨[⟨3, "Room-A", "u1", 0, 600, ResStatus.Completed⟩], 4⟩ 3
        = (CancelApiResult.notFound,
           ⟨[⟨3, "Room-A", "u1", 0, 600, ResStatus.Completed⟩], 4⟩)) ∧
    ((cancel_reservation ⟨[⟨5, "Room-A", "u2", 0, 600, ResStatus.Confirmed⟩], 6⟩ 5).1
        = true →
      cancel_reservation
        (cancel_reservation ⟨[⟨5, "Room-A", "u2", 0, 600, ResStatus.Confirmed⟩], 6⟩ 5).2 5
        = (false,
          (cancel_reservation ⟨[⟨5, "Room-A", "u2", 0, 600, ResStatus.Confirmed⟩], 6⟩ 5).2)) :=
  ⟨(C5_cancel_not_found_semantics ⟨[⟨3, "Room-A", "u1", 0, 600, ResStatus.Completed⟩], 4⟩ 3
      (by intro r hr hid; simp at hr; rw [hr]; exact Or.inr rfl)).1,
   (C5_cancel_not_found_semantics ⟨[⟨3, "Room-A", "u1", 0, 600, ResStatus.Completed⟩], 4⟩ 3
      (by intro r hr hid; simp at hr; rw [hr]; exact Or.inr rfl)).2
      ⟨[⟨5, "Room-A", "u2", 0, 600, ResStatus.Confirmed⟩], 6⟩ 5⟩

/-- The four tunable engine timing parameters of `RoomStateManager`
(read and written through `/debug/state_params`, main.py:272-321). -/
structure StateParams where
  grace_period_sec : Int
  arrival_window_before_sec : Int
  arrival_window_after_sec : Int
  cleanup_margin_sec : Int
deriving DecidableEq, Repr

/-- A `POST /debug/state_params` body, per key: `none` models an absent key
(`KeyError`), `some none` a present value that `int()` rejects
(`TypeError`/`ValueError`), `some (some n)` a value parsing to `n`. -/
structure StateParamsBody where
  grace_period_sec : Option (Option Int)
  arrival_window_before_sec : Option (Option Int)
  arrival_window_after_sec : Option (Option Int)
  cleanup_margin_sec : Option (Option Int)
deriving DecidableEq, Repr

/-- `_int_or_default` of `debug_state_params` (main.py:295-299): the parsed
value when the key is present and parseable, the current value otherwise. -/
def int_or_default (v : Option (Option Int)) (current : Int) : Int :=
  match v with
  | some (some n) => n
  | _ => current

/-- `GET /debug/state_params` (main.py:282-290): returns the four current
values. -/
def debug_state_params_get (p : StateParams) : StateParams := p

/-- `POST /debug/state_params` (main.py:292-321): overwrites exactly the
parameters supplied with a parseable value. -/
def debug_state_params_post (p : StateParams) (body : StateParamsBody) : StateParams :=
  { grace_period_sec := int_or_default body.grace_period_sec p.grace_period_sec
    arrival_window_before_sec :=
      int_or_default body.arrival_window_before_sec p.arrival_window_before_sec
    arrival_window_after_sec :=
      int_or_default body.arrival_window_after_sec p.arrival_window_after_sec
    cleanup_margin_sec := int_or_default body.cleanup_margin_sec p.cleanup_margin_sec }

/-- C8: GET returns the four current parameter values; POST sets each
parameter whose key carries an integer-parseable value and retains the
previous value of each parameter whose key is absent or unparseable. -/
theorem C8_state_params_read_write (p : StateParams) (body : StateParamsBody) :
    debug_state_params_get p = p ∧
    (∀ n, body.grace_period_sec = some (some n) →
      (debug_state_params_post p body).grace_period_sec = n) ∧
    ((body.grace_period_sec = none ∨ body.grace_period_sec = some none) →
      (debug_state_params_post p body).grace_period_sec = p.grace_period_sec) ∧
    (∀ n, body.arrival_window_before_sec = some (some n) →
      (debug_state_params_post p body).arrival_window_before_sec = n) ∧
    ((body.arrival_window_before_sec = none ∨ body.arrival_window_before_sec = some none) →
      (debug_state_params_post p body).arrival_window_before_sec
        = p.arrival_window_before_sec) ∧
    (∀ n, body.arrival_window_after_sec = some (some n) →
      (debug_state_params_post p body).arrival_window_after_sec = n) ∧
    ((body.arrival_window_after_sec = none ∨ body.arrival_window_after_sec = some none) →
      (debug_state_params_post p body).arrival_window_after_sec
        = p.arrival_window_after_sec) ∧
    (∀ n, body.cleanup_margin_sec = some (some n) →
      (debug_state_params_post p body).cleanup_margin_sec = n) ∧
    ((body.cleanup_margin_sec = none ∨ body.cleanup_margin_sec = some none) →
      (debug_state_params_post p body).cleanup_margin_sec = p.cleanup_margin_sec) := by
  refine ⟨rfl, ?_, ?_, ?_, ?_, ?_, ?_, ?_, ?_⟩ <;>
    first
      | (intro n h; simp [debug_state_params_post, int_or_default, h])
      | (rintro (h | h) <;> simp [debug_state_params_post, int_or_default, h])

/-- C8 witness: a POST that sets grace to 120 and cleanup to 10, omits the
before-window, and sends an unparseable after-window, updates exactly the
two parseable keys. -/
theorem C8_state_params_read_write_witness :
    debug_state_params_get ⟨300, 600, 600, 300⟩ = (⟨300, 600, 600, 300⟩ : StateParams) ∧
    (debug_state_params_post ⟨300, 600, 600, 300⟩
      ⟨some (some 120), none, some none, some (some 10)⟩).grace_period_sec = 120 ∧
    (debug_state_params_post ⟨300, 600, 600, 300⟩
      ⟨some (some 120), none, some none, some (some 10)⟩).arrival_window_before_sec = 600 ∧
    (debug_state_params_post ⟨300, 600, 600, 300⟩
      ⟨some (some 120), none, some none, some (some 10)⟩).arrival_window_after_sec = 600 ∧
    (debug_state_params_post ⟨300, 600, 600, 300⟩
      ⟨some (some 120), none, some none, some (some 10)⟩).cleanup_margin_sec = 10 :=
  ⟨(C8_state_params_read_write ⟨300, 600, 600, 300⟩
      ⟨some (some 120), none, some none, some (some 10)⟩).1,
   (C8_state_params_read_write ⟨300, 600, 600, 300⟩
      ⟨some (some 120), none, some none, some (some 10)⟩).2.1 120 rfl,
   (C8_state_params_read_write ⟨300, 600, 600, 300⟩
      ⟨some (some 120), none, some none, some (some 10)⟩).2.2.2.2.1 (Or.inl rfl),
   (C8_state_params_read_write ⟨300, 600, 600, 300⟩
      ⟨some (some 120), none, some none, some (some 10)⟩).2.2.2.2.2.2.1 (Or.inr rfl),
   (C8_state_params_read_write ⟨300, 600, 600, 300⟩
      ⟨some (some 120), none, some none, some (some 10)⟩).2.2.2.2.2.2.2.1 10 rfl⟩
